import Mathlib

/-!
# Verification of the Service Bus secret-rotation orchestrator

Shallow embedding of `src/functions/infrastructure/function_app.py`
(class `SecretRotationManager`).  External SDK calls (Service Bus
management, Key Vault) are modelled by an explicit *world*: a function
from the index of the external call to the response the service gives
(a success value or a raised exception).  Every method is embedded as a
state-passing function over `RotState`, which records the next world
index, a clock in seconds (advanced only by `time.sleep`), the trace of
external calls and sleeps made so far, and the two memoized client
handles (`self.servicebus_client` / `self.keyvault_client`, modelled as
Booleans since client construction is local and makes no network call).
Python exceptions are `Except String`.
-/

/-- A configured authorization rule: `{"name": ..., "secret_name": ...}`
entry of `self.auth_rules`. -/
structure AuthRule where
  name : String
  secret_name : String
deriving Repr, DecidableEq

/-- The configuration read once in `SecretRotationManager.__init__` from
the process environment. -/
structure Config where
  subscription_id : Option String
  resource_group_name : String
  namespace_name : String
  key_vault_uri : Option String
  rotation_enabled : Bool
  auth_rules : List AuthRule
deriving Repr, DecidableEq

/-- The raw environment visible to `__init__` (`os.environ.get`), one
field per variable the constructor reads; `none` means the variable is
unset. -/
structure Env where
  azure_subscription_id : Option String
  service_bus_resource_group : Option String
  service_bus_namespace : Option String
  key_vault_uri : Option String
  rotation_enabled : Option String
  rotate_admin_access : Option String
deriving Repr, DecidableEq

/-- Python's `str.lower()`: lower-case every character.  (Same map as
`String.toLower`, but written over the character list so that it is
kernel-reducible.) -/
def pyLower (s : String) : String := ⟨s.data.map Char.toLower⟩

/-- `SecretRotationManager.__init__` (function_app.py lines 98-134):
defaults for resource group and namespace, `ROTATION_ENABLED`
defaulting to `"true"` and compared case-insensitively, the two fixed
authorization rules, plus `AdminAccess` when `ROTATE_ADMIN_ACCESS` is
`"true"`. -/
def initConfig (e : Env) : Config :=
  { subscription_id := e.azure_subscription_id
    resource_group_name := e.service_bus_resource_group.getD "rg-azpolicy-dev-eastus"
    namespace_name := e.service_bus_namespace.getD "sb-azpolicy-dev-eastus-001"
    key_vault_uri := e.key_vault_uri
    rotation_enabled := pyLower (e.rotation_enabled.getD "true") == "true"
    auth_rules :=
      [{ name := "FunctionAppAccess",
         secret_name := "servicebus-function-app-connection-string" },
       { name := "ReadOnlyAccess",
         secret_name := "servicebus-read-only-connection-string" }] ++
      (if pyLower (e.rotate_admin_access.getD "false") == "true" then
        [{ name := "AdminAccess",
           secret_name := "servicebus-admin-connection-string" }]
      else []) }

/-- Which key a `regenerate_keys` call targets (`key_type` parameter). -/
inductive KeyType
  | primary
  | secondary
deriving Repr, DecidableEq

/-- One observable external action: an SDK call against the Service Bus
management plane or Key Vault, or a `time.sleep`.  `setSecret` carries
the full payload of `client.set_secret` (lines 272-283): value,
`expires_on`, `content_type` and the four provenance tags. -/
inductive Event
  | regenerateKeys (resource_group namespace_name rule : String) (kt : KeyType)
  | listKeys (resource_group namespace_name rule : String)
  | sleep (seconds : Nat)
  | setSecret (sname value : String) (expiresOn : Nat) (contentType : String)
      (tagSecretType tagRotatedBy : String) (tagRotatedAt : Nat)
      (tagNamespace : String)
  | getNamespace (resource_group namespace_name : String)
  | listSecretProps
deriving Repr, DecidableEq

/-- The response an external service gives to one call: a plain success
(`ok`, for calls whose return value is unused), key material
(`list_keys`), a namespace status (`namespaces.get`), or a raised
exception with its message. -/
inductive ExtResult
  | ok
  | keys (primary_connection_string secondary_connection_string : String)
  | ns (status : String)
  | exn (msg : String)
deriving Repr, DecidableEq

/-- The external world: the response returned to the n-th external SDK
call of the run. -/
abbrev World := Nat → ExtResult

/-- Mutable execution state threaded through the embedded methods. -/
structure RotState where
  idx : Nat
  clock : Nat
  trace : List Event
  sbClient : Bool
  kvClient : Bool
deriving Repr, DecidableEq

/-- Record one external SDK call: append its event to the trace and
consume the next world response. -/
def bump (s : RotState) (e : Event) : RotState :=
  { s with idx := s.idx + 1, trace := s.trace ++ [e] }

/-- An external call whose return value is ignored (`regenerate_keys`,
`set_secret`, `list_properties_of_secrets`): succeeds unless the world
raises. -/
def callVoid (w : World) (s : RotState) (e : Event) :
    Except String Unit × RotState :=
  (match w s.idx with
   | .exn m => .error m
   | _ => .ok (), bump s e)

/-- `namespaces.list_keys`: succeeds with the two connection strings; a
response of the wrong shape counts as a raised exception. -/
def callKeys (w : World) (s : RotState) (e : Event) :
    Except String (String × String) × RotState :=
  (match w s.idx with
   | .keys p q => .ok (p, q)
   | .exn m => .error m
   | _ => .error "unexpected response shape", bump s e)

/-- `namespaces.get`: succeeds with the namespace status string. -/
def callNs (w : World) (s : RotState) (e : Event) :
    Except String String × RotState :=
  (match w s.idx with
   | .ns st => .ok st
   | .exn m => .error m
   | _ => .error "unexpected response shape", bump s e)

/-- `time.sleep(n)`: advances the clock and is recorded in the trace;
it makes no external call and cannot fail. -/
def doSleep (s : RotState) (n : Nat) : RotState :=
  { s with clock := s.clock + n, trace := s.trace ++ [.sleep n] }

/-- `SecretRotationManager._get_servicebus_client` (lines 146-162):
memoized; raises `ValueError("AZURE_SUBSCRIPTION_ID not configured")`
when the subscription id is absent, *before* constructing credential or
client (construction itself is local and makes no network call). -/
def getServicebusClient (c : Config) (s : RotState) :
    Except String Unit × RotState :=
  if s.sbClient then (.ok (), s)
  else
    match c.subscription_id with
    | none => (.error "AZURE_SUBSCRIPTION_ID not configured", s)
    | some _ => (.ok (), { s with sbClient := true })

/-- `SecretRotationManager._get_keyvault_client` (lines 164-180):
memoized; raises `ValueError("KEY_VAULT_URI not configured")` when the
vault endpoint is absent, before any network activity. -/
def getKeyvaultClient (c : Config) (s : RotState) :
    Except String Unit × RotState :=
  if s.kvClient then (.ok (), s)
  else
    match c.key_vault_uri with
    | none => (.error "KEY_VAULT_URI not configured", s)
    | some _ => (.ok (), { s with kvClient := true })

/-- `SecretRotationManager.rotate_authorization_rule_keys` (lines
182-252): regenerate primary, sleep 30, list keys (result read but
discarded), sleep 300, regenerate secondary, sleep 30, list keys again
and return that final pair.  The `try/except` wrapper only logs and
re-raises, so it has no semantic effect. -/
def rotate_authorization_rule_keys (c : Config) (w : World) (rule_name : String)
    (s : RotState) : Except String (String × String) × RotState :=
  match getServicebusClient c s with
  | (.error m, s1) => (.error m, s1)
  | (.ok _, s1) =>
    match callVoid w s1
        (.regenerateKeys c.resource_group_name c.namespace_name rule_name .primary) with
    | (.error m, s2) => (.error m, s2)
    | (.ok _, s2) =>
      let s3 := doSleep s2 30
      match callKeys w s3
          (.listKeys c.resource_group_name c.namespace_name rule_name) with
      | (.error m, s4) => (.error m, s4)
      | (.ok _, s4) =>
        let s5 := doSleep s4 300
        match callVoid w s5
            (.regenerateKeys c.resource_group_name c.namespace_name rule_name .secondary) with
        | (.error m, s6) => (.error m, s6)
        | (.ok _, s6) =>
          let s7 := doSleep s6 30
          match callKeys w s7
              (.listKeys c.resource_group_name c.namespace_name rule_name) with
          | (.error m, s8) => (.error m, s8)
          | (.ok final_keys, s8) => (.ok final_keys, s8)

/-- Thirty days in seconds (`timedelta(days=30)`). -/
def thirtyDays : Nat := 30 * 86400

/-- `SecretRotationManager.update_keyvault_secret` (lines 254-290):
writes the secret with expiry now + 30 days, content type
`"text/plain"` and the four provenance tags, returning `true`; any
exception (missing `KEY_VAULT_URI`, or a failure of the `set_secret`
call itself) is caught and turned into `false`.  Both `datetime.now`
readings (expiry base and the `RotatedAt` tag) are modelled by the
current clock. -/
def update_keyvault_secret (c : Config) (w : World)
    (secret_name connection_string : String) (s : RotState) :
    Bool × RotState :=
  match getKeyvaultClient c s with
  | (.error _, s1) => (false, s1)
  | (.ok _, s1) =>
    match callVoid w s1
        (.setSecret secret_name connection_string (s1.clock + thirtyDays)
          "text/plain" "servicebus-connection-string" "infrastructure-function"
          s1.clock c.namespace_name) with
    | (.error _, s2) => (false, s2)
    | (.ok _, s2) => (true, s2)

/-- One entry of `rules_rotated` (TypedDict `RotationRuleResult`). -/
structure RotationRuleResult where
  rule_name : String
  secret_name : String
  rotated_at : Nat
  status : String
deriving Repr, DecidableEq

/-- The aggregate report (TypedDict `RotationResults`).  Timestamps are
clock readings; `end_time`/`duration_seconds` are `none` until the
report is finalized (the Python initializes them to the sentinels `""`
and `0.0` and overwrites both on every return path). -/
structure RotationResults where
  rotation_id : String
  start_time : Nat
  namespace_name : String
  resource_group : String
  rules_rotated : List RotationRuleResult
  errors : List String
  success : Bool
  end_time : Option Nat
  duration_seconds : Option Nat
deriving Repr, DecidableEq

/-- The per-rule loop of `perform_rotation` (lines 322-359): for each
rule, rotate; on an exception record one error string and continue; on
success store the new primary connection string, recording one outcome
(status `"success"`, timestamped at the append) when the store reports
`true` and one error string when it reports `false`.  Returns the
outcomes and errors appended in configured order. -/
def processRules (c : Config) (w : World) :
    List AuthRule → RotState → (List RotationRuleResult × List String) × RotState
  | [], s => (([], []), s)
  | r :: rest, s =>
    match rotate_authorization_rule_keys c w r.name s with
    | (.error m, s1) =>
      match processRules c w rest s1 with
      | ((outs, errs), s2) =>
        ((outs, ("Failed to rotate rule " ++ r.name ++ ": " ++ m) :: errs), s2)
    | (.ok (p, _q), s1) =>
      match update_keyvault_secret c w r.secret_name p s1 with
      | (true, s2) =>
        match processRules c w rest s2 with
        | ((outs, errs), s3) =>
          (({ rule_name := r.name, secret_name := r.secret_name,
              rotated_at := s2.clock, status := "success" } :: outs, errs), s3)
      | (false, s2) =>
        match processRules c w rest s2 with
        | ((outs, errs), s3) =>
          ((outs, ("Failed to update Key Vault secret for rule: " ++ r.name) :: errs), s3)

/-- Body of the outer `try` of `perform_rotation` (lines 321-370): run
the per-rule loop, then finalize `success`, `end_time` and
`duration_seconds`.  In the embedding every failure point of the body
lies inside the per-rule handler modelled in `processRules`, so the
body never raises; the `Except` wrapper mirrors the source structure so
that the top-level `except` arm (lines 372-379) is represented. -/
def perform_rotation_body (c : Config) (w : World) (base : RotationResults)
    (s : RotState) : Except String (RotationResults × RotState) :=
  match processRules c w c.auth_rules s with
  | ((outs, errs), s1) =>
    .ok ({ base with
            rules_rotated := outs
            errors := errs
            success := decide (0 < outs.length) && decide (errs.length = 0)
            end_time := some s1.clock
            duration_seconds := some (s1.clock - base.start_time) }, s1)

/-- `SecretRotationManager.perform_rotation` (lines 292-379), the
spec's `run()`.  The fresh `uuid` is passed in as `rotation_id`.  When
rotation is disabled it short-circuits with the single error
`"Secret rotation is disabled"`; otherwise it runs the loop; a critical
error escaping the loop would be appended and the finalized report
still returned. -/
def perform_rotation (c : Config) (w : World) (rotation_id : String)
    (s : RotState) : RotationResults × RotState :=
  let base : RotationResults :=
    { rotation_id := rotation_id, start_time := s.clock,
      namespace_name := c.namespace_name,
      resource_group := c.resource_group_name,
      rules_rotated := [], errors := [], success := false,
      end_time := none, duration_seconds := none }
  if c.rotation_enabled then
    match perform_rotation_body c w base s with
    | .ok rs => rs
    | .error m =>
      ({ base with
          errors := base.errors ++ ["Critical error during rotation: " ++ m],
          end_time := some s.clock,
          duration_seconds := some (s.clock - s.clock) }, s)
  else
    ({ base with
        errors := ["Secret rotation is disabled"],
        end_time := some s.clock,
        duration_seconds := some (s.clock - s.clock) }, s)

/-- The status record for one dependency in `test_connections`
(`{"status": ..., "error": ...}`, with `namespace_status` added on a
healthy Service Bus probe). -/
structure ConnStatus where
  status : String
  error : Option String
  namespace_status : Option String
deriving Repr, DecidableEq

/-- The Service Bus arm of `test_connections` (lines 394-405): get the
management client and read the namespace; any exception yields status
`unhealthy` with the message. -/
def probeServiceBus (c : Config) (w : World) (s : RotState) :
    ConnStatus × RotState :=
  match getServicebusClient c s with
  | (.error m, s1) =>
    ({ status := "unhealthy", error := some m, namespace_status := none }, s1)
  | (.ok _, s1) =>
    match callNs w s1 (.getNamespace c.resource_group_name c.namespace_name) with
    | (.error m, s2) =>
      ({ status := "unhealthy", error := some m, namespace_status := none }, s2)
    | (.ok st, s2) =>
      ({ status := "healthy", error := none, namespace_status := some st }, s2)

/-- The Key Vault arm of `test_connections` (lines 408-415): get the
secret client and list one page of secret properties; any exception
yields status `unhealthy` with the message. -/
def probeKeyVault (c : Config) (w : World) (s : RotState) :
    ConnStatus × RotState :=
  match getKeyvaultClient c s with
  | (.error m, s1) =>
    ({ status := "unhealthy", error := some m, namespace_status := none }, s1)
  | (.ok _, s1) =>
    match callVoid w s1 .listSecretProps with
    | (.error m, s2) =>
      ({ status := "unhealthy", error := some m, namespace_status := none }, s2)
    | (.ok _, s2) =>
      ({ status := "healthy", error := none, namespace_status := none }, s2)

/-- `SecretRotationManager.test_connections` (lines 381-417): probe the
Service Bus namespace and then Key Vault, each inside its own
`try/except`, so a failure of either probe (including client
construction failing on missing configuration) is recorded as
`unhealthy` with the exception message and never prevents the other
probe or escapes the method. -/
def test_connections (c : Config) (w : World) (s : RotState) :
    (ConnStatus × ConnStatus) × RotState :=
  match probeServiceBus c w s with
  | (sb, s1) =>
    match probeKeyVault c w s1 with
    | (kv, s2) => ((sb, kv), s2)

/-! ## Concrete fixtures -/

/-- Fresh execution state at the start of a run. -/
def state0 : RotState :=
  { idx := 0, clock := 0, trace := [], sbClient := false, kvClient := false }

/-- Environment with no variables set: defaults apply, rotation enabled,
subscription id and vault endpoint absent. -/
def envEmpty : Env :=
  { azure_subscription_id := none, service_bus_resource_group := none,
    service_bus_namespace := none, key_vault_uri := none,
    rotation_enabled := none, rotate_admin_access := none }

/-- Fully configured environment (subscription id and vault endpoint set). -/
def envFull : Env :=
  { envEmpty with
      azure_subscription_id := some "sub-0000",
      key_vault_uri := some "https://kv.vault.azure.net/" }

/-- Fully configured environment with rotation switched off. -/
def envDisabled : Env := { envFull with rotation_enabled := some "false" }

def cfgEmpty : Config := initConfig envEmpty

def cfgFull : Config := initConfig envFull

def cfgDisabled : Config := initConfig envDisabled

/-- A world in which every call succeeds; the two key fetches of each
rule return distinct pairs, so first and second fetch results are
distinguishable. -/
def happyWorld : World := fun n =>
  if n = 1 then .keys "p-first" "s-first"
  else if n = 3 then .keys "p-final" "s-final"
  else if n = 6 then .keys "p2-first" "s2-first"
  else if n = 8 then .keys "p2-final" "s2-final"
  else .ok

/-- A world in which the very first call (regenerating the primary key
of the first rule) raises, while everything afterwards succeeds. -/
def worldFailA : World := fun n =>
  if n = 0 then .exn "boom"
  else if n = 2 then .keys "bp-first" "bs-first"
  else if n = 4 then .keys "bp-final" "bs-final"
  else .ok

/-- A world in which the Service Bus probe succeeds (namespace status
`Active`) and every Key Vault call raises. -/
def worldKvThrow : World := fun n =>
  if n = 0 then .ns "Active" else .exn "kv down"

example :
    (rotate_authorization_rule_keys cfgFull happyWorld "FunctionAppAccess" state0).1 =
      .ok ("p-final", "s-final") := by rfl

example :
    (perform_rotation cfgFull happyWorld "rid" state0).1.success = true := by rfl

/-! ## Theorems -/

/-- The exact external-action sequence of one successful
`rotate_authorization_rule_keys` run. -/
def rotateCallSeq (rg nsn rule : String) : List Event :=
  [.regenerateKeys rg nsn rule .primary, .sleep 30, .listKeys rg nsn rule,
   .sleep 300, .regenerateKeys rg nsn rule .secondary, .sleep 30,
   .listKeys rg nsn rule]

theorem getServicebusClient_state (c : Config) (s : RotState) :
    (getServicebusClient c s).2.idx = s.idx ∧
    (getServicebusClient c s).2.trace = s.trace ∧
    (getServicebusClient c s).2.clock = s.clock ∧
    (getServicebusClient c s).2.kvClient = s.kvClient := by
  unfold getServicebusClient
  split
  · exact ⟨rfl, rfl, rfl, rfl⟩
  · split <;> exact ⟨rfl, rfl, rfl, rfl⟩

/-- **C2**: whenever `rotate_authorization_rule_keys` returns a pair of
connection strings, the external actions it performed are exactly:
regenerate primary key, wait 30, fetch keys, wait 300, regenerate
secondary key, wait 30, fetch keys — in that order with nothing skipped
or reordered — and the returned pair is the response of the second
(final) fetch, the one consumed at world index `s.idx + 3`, not the
first fetch (world index `s.idx + 1`). -/
theorem rotate_rule_call_sequence (c : Config) (w : World)
    (rule_name : String) (s sf : RotState) (p q : String)
    (h : rotate_authorization_rule_keys c w rule_name s = (.ok (p, q), sf)) :
    sf.trace = s.trace ++ rotateCallSeq c.resource_group_name c.namespace_name rule_name ∧
    w (s.idx + 3) = .keys p q ∧ sf.idx = s.idx + 4 ∧ sf.clock = s.clock + 360 := by
  unfold rotate_authorization_rule_keys at h
  rcases hsb : getServicebusClient c s with ⟨r0, s1⟩
  rw [hsb] at h
  have hst := getServicebusClient_state c s
  rw [hsb] at hst
  obtain ⟨hi1, ht1, hc1, _⟩ := hst
  simp only at hi1 ht1 hc1
  cases r0 with
  | error m => simp at h
  | ok u =>
    simp only [callVoid, callKeys, doSleep, bump] at h
    split at h
    · simp at h
    rename_i x1 a1 t1 heq1
    injection heq1 with hr1 hs1
    subst hs1
    dsimp only at h
    split at h
    · simp at h
    rename_i x2 a2 t2 heq2
    injection heq2 with hr2 hs2
    subst hs2
    dsimp only at h
    split at h
    · simp at h
    rename_i x3 a3 t3 heq3
    injection heq3 with hr3 hs3
    subst hs3
    dsimp only at h
    split at h
    · simp at h
    rename_i x4 a4 t4 heq4
    injection heq4 with hr4 hs4
    subst hs4
    injection h with hfk hsf
    injection hfk with hkk
    subst hkk
    subst hsf
    refine ⟨?_, ?_, ?_, ?_⟩
    · simp [rotateCallSeq, ht1]
    · have h14 : s1.idx + 1 + 1 + 1 = s.idx + 3 := by omega
      rw [h14] at hr4
      rcases hk : w (s.idx + 3) with _ | ⟨pp, qq⟩ | st | m <;> rw [hk] at hr4 <;>
        simp at hr4
      obtain ⟨rfl, rfl⟩ := hr4
      rfl
    · dsimp only
      omega
    · dsimp only
      omega

/-- Witness for `rotate_rule_call_sequence` at a concrete configuration,
world and rule. -/
theorem rotate_rule_call_sequence_witness :
    (rotate_authorization_rule_keys cfgFull happyWorld "FunctionAppAccess"
        state0).2.trace =
      state0.trace ++
        rotateCallSeq cfgFull.resource_group_name cfgFull.namespace_name
          "FunctionAppAccess" ∧
    happyWorld (state0.idx + 3) = .keys "p-final" "s-final" ∧
    (rotate_authorization_rule_keys cfgFull happyWorld "FunctionAppAccess"
        state0).2.idx = state0.idx + 4 ∧
    (rotate_authorization_rule_keys cfgFull happyWorld "FunctionAppAccess"
        state0).2.clock = state0.clock + 360 :=
  rotate_rule_call_sequence cfgFull happyWorld "FunctionAppAccess" state0
    (rotate_authorization_rule_keys cfgFull happyWorld "FunctionAppAccess"
      state0).2 "p-final" "s-final" (by rfl)

/-- **C1**: every report produced by `perform_rotation` — disabled
short-circuit, normal completion, or the top-level catch — satisfies
`success == (len(rules_rotated) > 0 AND len(errors) == 0)`. -/
theorem perform_rotation_success_flag (c : Config) (w : World)
    (rid : String) (s : RotState) :
    (perform_rotation c w rid s).1.success = true ↔
      (0 < (perform_rotation c w rid s).1.rules_rotated.length ∧
        (perform_rotation c w rid s).1.errors.length = 0) := by
  unfold perform_rotation perform_rotation_body
  by_cases hen : c.rotation_enabled
  · simp only [hen, if_true]
    rcases hp : processRules c w c.auth_rules s with ⟨⟨outs, errs⟩, s1⟩
    simp [hp]
  · simp [hen]

/-- **C5**: `perform_rotation` is a total function (the embedding of
"never propagates an exception to its caller"), and on every path —
disabled short-circuit, normal completion, and the top-level catch arm
— the returned report has `end_time` and `duration_seconds` filled
in. -/
theorem perform_rotation_always_finalizes (c : Config) (w : World)
    (rid : String) (s : RotState) :
    ((perform_rotation c w rid s).1.end_time).isSome = true ∧
    ((perform_rotation c w rid s).1.duration_seconds).isSome = true := by
  unfold perform_rotation perform_rotation_body
  by_cases hen : c.rotation_enabled
  · simp only [hen, if_true]
    rcases hp : processRules c w c.auth_rules s with ⟨⟨outs, errs⟩, s1⟩
    simp [hp]
  · simp [hen]

/-- **C4**: with the rotation-enabled flag false, `perform_rotation`
returns immediately: no external call is made and no time passes (the
final state equals the initial one), and the report has
`success = false`, `errors = ["Secret rotation is disabled"]`, empty
`rules_rotated`, and its timestamps finalized. -/
theorem perform_rotation_disabled_short_circuit (c : Config) (w : World)
    (rid : String) (s : RotState) (h : c.rotation_enabled = false) :
    (perform_rotation c w rid s).1.success = false ∧
    (perform_rotation c w rid s).1.errors = ["Secret rotation is disabled"] ∧
    (perform_rotation c w rid s).1.rules_rotated = [] ∧
    (perform_rotation c w rid s).1.end_time = some s.clock ∧
    (perform_rotation c w rid s).2 = s := by
  unfold perform_rotation
  simp [h]

/-- Witness for `perform_rotation_disabled_short_circuit` on the
disabled configuration. -/
theorem perform_rotation_disabled_short_circuit_witness :
    (perform_rotation cfgDisabled happyWorld "rid" state0).1.success = false ∧
    (perform_rotation cfgDisabled happyWorld "rid" state0).1.errors =
      ["Secret rotation is disabled"] ∧
    (perform_rotation cfgDisabled happyWorld "rid" state0).1.rules_rotated = [] ∧
    (perform_rotation cfgDisabled happyWorld "rid" state0).1.end_time =
      some state0.clock ∧
    (perform_rotation cfgDisabled happyWorld "rid" state0).2 = state0 :=
  perform_rotation_disabled_short_circuit cfgDisabled happyWorld "rid" state0
    (by rfl)

theorem processRules_count (c : Config) (w : World) :
    ∀ (rs : List AuthRule) (s : RotState),
      (processRules c w rs s).1.1.length + (processRules c w rs s).1.2.length =
        rs.length := by
  intro rs
  induction rs with
  | nil => intro s; simp [processRules]
  | cons r rest ih =>
    intro s
    unfold processRules
    rcases hr : rotate_authorization_rule_keys c w r.name s with ⟨res, s1⟩
    cases res with
    | error m =>
      dsimp only
      have hc := ih s1
      simp only [List.length_cons]
      show (processRules c w rest s1).1.1.length +
          ((processRules c w rest s1).1.2.length + 1) = rest.length + 1
      omega
    | ok pq =>
      rcases pq with ⟨p, q2⟩
      dsimp only
      rcases hu : update_keyvault_secret c w r.secret_name p s1 with ⟨b, s2⟩
      cases b
      · dsimp only
        have hc := ih s2
        simp only [List.length_cons]
        show (processRules c w rest s2).1.1.length +
            ((processRules c w rest s2).1.2.length + 1) = rest.length + 1
        omega
      · dsimp only
        have hc := ih s2
        simp only [List.length_cons]
        show (processRules c w rest s2).1.1.length + 1 +
            (processRules c w rest s2).1.2.length = rest.length + 1
        omega

/-- **C3**: with rotation enabled, each configured rule contributes at
most one entry to the report — outcomes plus rule-level errors never
exceed the number of configured rules — and in the concrete two-rule
run where the first rule's rotation raises and the second succeeds
end-to-end, the report holds exactly one error (for the first rule),
exactly one outcome (for the second), and `success = false`. -/
theorem perform_rotation_per_rule_accounting :
    (∀ (c : Config) (w : World) (rid : String) (s : RotState),
        c.rotation_enabled = true →
        (perform_rotation c w rid s).1.rules_rotated.length +
            (perform_rotation c w rid s).1.errors.length ≤
          c.auth_rules.length) ∧
    ((perform_rotation cfgFull worldFailA "rid" state0).1.errors =
        ["Failed to rotate rule FunctionAppAccess: boom"] ∧
      (perform_rotation cfgFull worldFailA "rid" state0).1.rules_rotated.map
          (fun o => o.rule_name) = ["ReadOnlyAccess"] ∧
      (perform_rotation cfgFull worldFailA "rid" state0).1.success = false) := by
  constructor
  · intro c w rid s hen
    unfold perform_rotation perform_rotation_body
    simp only [hen, if_true]
    have hc := processRules_count c w c.auth_rules s
    rcases hp : processRules c w c.auth_rules s with ⟨⟨outs, errs⟩, s1⟩
    rw [hp] at hc
    simp at hc
    simp [hp]
    omega
  · exact ⟨rfl, rfl, rfl⟩

/-- Witness for the quantified part of
`perform_rotation_per_rule_accounting`. -/
theorem perform_rotation_per_rule_accounting_witness :
    (perform_rotation cfgFull happyWorld "rid" state0).1.rules_rotated.length +
        (perform_rotation cfgFull happyWorld "rid" state0).1.errors.length ≤
      cfgFull.auth_rules.length :=
  perform_rotation_per_rule_accounting.1 cfgFull happyWorld "rid" state0 (by rfl)

/-- Environment with the subscription id set but no vault endpoint: key
rotation works, Key Vault writes fail. -/
def envSbOnly : Env := { envEmpty with azure_subscription_id := some "sub-0000" }

def cfgSbOnly : Config := initConfig envSbOnly

/-- **C6**: when a rule's rotation succeeds but the secret-store write
reports failure, the loop appends exactly one error string for that
rule, records no outcome for it, and still processes all remaining
rules (the outcomes, remaining errors and final state are those of the
loop on the rest). -/
theorem store_failure_recorded_and_continues (c : Config) (w : World)
    (s : RotState) (r : AuthRule) (rest : List AuthRule) (p q : String)
    (hrot : (rotate_authorization_rule_keys c w r.name s).1 = .ok (p, q))
    (hupd : (update_keyvault_secret c w r.secret_name p
        ((rotate_authorization_rule_keys c w r.name s).2)).1 = false) :
    processRules c w (r :: rest) s =
      (((processRules c w rest
            ((update_keyvault_secret c w r.secret_name p
              ((rotate_authorization_rule_keys c w r.name s).2)).2)).1.1,
        ("Failed to update Key Vault secret for rule: " ++ r.name) ::
          (processRules c w rest
            ((update_keyvault_secret c w r.secret_name p
              ((rotate_authorization_rule_keys c w r.name s).2)).2)).1.2),
       (processRules c w rest
          ((update_keyvault_secret c w r.secret_name p
            ((rotate_authorization_rule_keys c w r.name s).2)).2)).2) := by
  conv_lhs => unfold processRules
  rcases hr : rotate_authorization_rule_keys c w r.name s with ⟨res, s1⟩
  rw [hr] at hrot hupd
  dsimp only at hrot hupd
  subst hrot
  dsimp only
  rcases hu : update_keyvault_secret c w r.secret_name p s1 with ⟨b, s2⟩
  rw [hu] at hupd
  dsimp only at hupd
  subst hupd
  dsimp only

/-- Witness for `store_failure_recorded_and_continues`: subscription
configured, vault endpoint missing, so rotation of the first rule
succeeds and the store write fails. -/
theorem store_failure_recorded_and_continues_witness :
    processRules cfgSbOnly happyWorld
        ({ name := "FunctionAppAccess",
           secret_name := "servicebus-function-app-connection-string" } ::
          [{ name := "ReadOnlyAccess",
             secret_name := "servicebus-read-only-connection-string" }]) state0 =
      (((processRules cfgSbOnly happyWorld
            [{ name := "ReadOnlyAccess",
               secret_name := "servicebus-read-only-connection-string" }]
            ((update_keyvault_secret cfgSbOnly happyWorld
              "servicebus-function-app-connection-string" "p-final"
              ((rotate_authorization_rule_keys cfgSbOnly happyWorld
                "FunctionAppAccess" state0).2)).2)).1.1,
        ("Failed to update Key Vault secret for rule: FunctionAppAccess") ::
          (processRules cfgSbOnly happyWorld
            [{ name := "ReadOnlyAccess",
               secret_name := "servicebus-read-only-connection-string" }]
            ((update_keyvault_secret cfgSbOnly happyWorld
              "servicebus-function-app-connection-string" "p-final"
              ((rotate_authorization_rule_keys cfgSbOnly happyWorld
                "FunctionAppAccess" state0).2)).2)).1.2),
       (processRules cfgSbOnly happyWorld
          [{ name := "ReadOnlyAccess",
             secret_name := "servicebus-read-only-connection-string" }]
          ((update_keyvault_secret cfgSbOnly happyWorld
            "servicebus-function-app-connection-string" "p-final"
            ((rotate_authorization_rule_keys cfgSbOnly happyWorld
              "FunctionAppAccess" state0).2)).2)).2) :=
  store_failure_recorded_and_continues cfgSbOnly happyWorld state0
    { name := "FunctionAppAccess",
      secret_name := "servicebus-function-app-connection-string" }
    [{ name := "ReadOnlyAccess",
       secret_name := "servicebus-read-only-connection-string" }]
    "p-final" "s-final" (by rfl) (by rfl)

/-- **C9**: a missing required setting is detected inside the client
getter before any external call: with no subscription id,
`rotate_authorization_rule_keys` fails with the configuration error and
the state is untouched (no event traced, no world response consumed);
with no vault endpoint, `update_keyvault_secret` returns false with the
state untouched. -/
theorem config_error_fails_before_network :
    (∀ (c : Config) (w : World) (rule_name : String) (s : RotState),
        c.subscription_id = none → s.sbClient = false →
        rotate_authorization_rule_keys c w rule_name s =
          (.error "AZURE_SUBSCRIPTION_ID not configured", s)) ∧
    (∀ (c : Config) (w : World) (sname value : String) (s : RotState),
        c.key_vault_uri = none → s.kvClient = false →
        update_keyvault_secret c w sname value s = (false, s)) := by
  constructor
  · intro c w rule s h1 h2
    unfold rotate_authorization_rule_keys getServicebusClient
    simp [h1, h2]
  · intro c w n v s h1 h2
    unfold update_keyvault_secret getKeyvaultClient
    simp [h1, h2]

/-- Witness for `config_error_fails_before_network` on the
unconfigured environment. -/
theorem config_error_fails_before_network_witness :
    rotate_authorization_rule_keys cfgEmpty happyWorld "FunctionAppAccess"
        state0 =
      (.error "AZURE_SUBSCRIPTION_ID not configured", state0) ∧
    update_keyvault_secret cfgEmpty happyWorld "sn" "val" state0 =
      (false, state0) :=
  ⟨config_error_fails_before_network.1 cfgEmpty happyWorld "FunctionAppAccess"
      state0 (by rfl) (by rfl),
    config_error_fails_before_network.2 cfgEmpty happyWorld "sn" "val" state0
      (by rfl) (by rfl)⟩

/-- **C7**: `update_keyvault_secret` is total (never raises) and
returns `true` exactly when the vault client is obtainable and the
`set_secret` call does not raise — every failure yields `false`; and
when it returns `true`, the single write performed carries the given
secret name and value, expiry thirty days past the current time, the
`text/plain` content type, and the provenance tags (secret type,
rotated-by, rotation timestamp, namespace). -/
theorem update_keyvault_secret_contract (c : Config) (w : World)
    (sname value : String) (s : RotState) :
    ((update_keyvault_secret c w sname value s).1 = true ↔
      ((s.kvClient = true ∨ c.key_vault_uri.isSome = true) ∧
        ∀ m, w s.idx ≠ .exn m)) ∧
    ((update_keyvault_secret c w sname value s).1 = true →
      (update_keyvault_secret c w sname value s).2.trace =
        s.trace ++ [.setSecret sname value (s.clock + thirtyDays) "text/plain"
          "servicebus-connection-string" "infrastructure-function" s.clock
          c.namespace_name]) := by
  unfold update_keyvault_secret getKeyvaultClient callVoid bump
  by_cases hkv : s.kvClient
  · simp only [hkv, if_true]
    rcases hw : w s.idx with _ | ⟨a, b⟩ | st | m <;> simp [hw]
  · simp only [hkv]
    cases hu : c.key_vault_uri with
    | none => simp [hkv]
    | some v =>
      simp only [Bool.false_eq_true, false_or]
      rcases hw : w s.idx with _ | ⟨a, b⟩ | st | m <;> simp [hw, hkv]

/-- Witness for `update_keyvault_secret_contract`: fully configured,
write succeeds, the traced event carries the full payload. -/
theorem update_keyvault_secret_contract_witness :
    (update_keyvault_secret cfgFull happyWorld "sn" "cs" state0).2.trace =
      state0.trace ++ [.setSecret "sn" "cs" (state0.clock + thirtyDays)
        "text/plain" "servicebus-connection-string" "infrastructure-function"
        state0.clock cfgFull.namespace_name] :=
  (update_keyvault_secret_contract cfgFull happyWorld "sn" "cs" state0).2
    (by rfl)

theorem probeServiceBus_shape (c : Config) (w : World) (s : RotState) :
    ((probeServiceBus c w s).1.status = "healthy" ∧
      (probeServiceBus c w s).1.error = none) ∨
    ((probeServiceBus c w s).1.status = "unhealthy" ∧
      ((probeServiceBus c w s).1.error).isSome = true) := by
  unfold probeServiceBus getServicebusClient callNs bump
  by_cases hb : s.sbClient
  · simp only [hb, if_true]
    rcases hw : w s.idx with _ | ⟨a, b⟩ | st | m <;> simp [hw]
  · simp only [hb]
    cases hs : c.subscription_id with
    | none => simp
    | some v =>
      rcases hw : w s.idx with _ | ⟨a, b⟩ | st | m <;> simp [hw]

theorem probeKeyVault_shape (c : Config) (w : World) (s : RotState) :
    ((probeKeyVault c w s).1.status = "healthy" ∧
      (probeKeyVault c w s).1.error = none) ∨
    ((probeKeyVault c w s).1.status = "unhealthy" ∧
      ((probeKeyVault c w s).1.error).isSome = true) := by
  unfold probeKeyVault getKeyvaultClient callVoid bump
  by_cases hb : s.kvClient
  · simp only [hb, if_true]
    rcases hw : w s.idx with _ | ⟨a, b⟩ | st | m <;> simp [hw]
  · simp only [hb]
    cases hs : c.key_vault_uri with
    | none => simp
    | some v =>
      rcases hw : w s.idx with _ | ⟨a, b⟩ | st | m <;> simp [hw]

theorem probeServiceBus_kvClient (c : Config) (w : World) (s : RotState) :
    (probeServiceBus c w s).2.kvClient = s.kvClient := by
  unfold probeServiceBus getServicebusClient callNs bump
  by_cases hb : s.sbClient
  · simp only [hb, if_true]
    rcases hw : w s.idx with _ | ⟨a, b⟩ | st | m <;> simp [hw]
  · simp only [hb]
    cases hs : c.subscription_id with
    | none => simp
    | some v =>
      rcases hw : w s.idx with _ | ⟨a, b⟩ | st | m <;> simp [hw]

/-- **C8**: `test_connections` never raises and probes the two
dependencies independently: on every configuration, world and state,
each of the two reported statuses is either healthy (with no error
detail) or unhealthy (with an error detail present) — a failure of one
probe never prevents the other from producing its status; and in the
concrete run with the queue probe succeeding and every Key Vault call
raising, it reports the queue healthy and the secret store unhealthy
with the exception message. -/
theorem test_connections_isolates_failures :
    (∀ (c : Config) (w : World) (s : RotState),
        ((((test_connections c w s).1.1.status = "healthy" ∧
            (test_connections c w s).1.1.error = none) ∨
          ((test_connections c w s).1.1.status = "unhealthy" ∧
            ((test_connections c w s).1.1.error).isSome = true)) ∧
         (((test_connections c w s).1.2.status = "healthy" ∧
            (test_connections c w s).1.2.error = none) ∨
          ((test_connections c w s).1.2.status = "unhealthy" ∧
            ((test_connections c w s).1.2.error).isSome = true)))) ∧
    ((test_connections cfgFull worldKvThrow state0).1.1.status = "healthy" ∧
      (test_connections cfgFull worldKvThrow state0).1.1.namespace_status =
        some "Active" ∧
      (test_connections cfgFull worldKvThrow state0).1.2.status = "unhealthy" ∧
      (test_connections cfgFull worldKvThrow state0).1.2.error =
        some "kv down") := by
  constructor
  · intro c w s
    unfold test_connections
    rcases hsb : probeServiceBus c w s with ⟨sb, s1⟩
    dsimp only
    constructor
    · have h := probeServiceBus_shape c w s
      rw [hsb] at h
      exact h
    · exact probeKeyVault_shape c w s1
  · exact ⟨rfl, rfl, rfl, rfl⟩

/-- **C10**: `test_connections` is total even when a required setting
is absent and client construction itself raises before any network
call: the missing subscription id surfaces as the queue dependency
being unhealthy with the configuration-error message, the missing vault
endpoint as the secret-store dependency being unhealthy with its
configuration-error message, and the other probe is unaffected. -/
theorem test_connections_total_on_missing_config (c : Config) (w : World)
    (s : RotState) :
    (c.subscription_id = none → s.sbClient = false →
      (test_connections c w s).1.1 =
        { status := "unhealthy",
          error := some "AZURE_SUBSCRIPTION_ID not configured",
          namespace_status := none }) ∧
    (c.key_vault_uri = none → s.kvClient = false →
      (test_connections c w s).1.2 =
        { status := "unhealthy",
          error := some "KEY_VAULT_URI not configured",
          namespace_status := none }) := by
  constructor
  · intro h1 h2
    unfold test_connections
    have hsb : probeServiceBus c w s =
        ({ status := "unhealthy",
           error := some "AZURE_SUBSCRIPTION_ID not configured",
           namespace_status := none }, s) := by
      unfold probeServiceBus getServicebusClient
      simp [h1, h2]
    rw [hsb]
  · intro h1 h2
    unfold test_connections
    rcases hsb : probeServiceBus c w s with ⟨sb, s1⟩
    have hk : s1.kvClient = false := by
      have hp := probeServiceBus_kvClient c w s
      rw [hsb] at hp
      dsimp only at hp
      rw [hp, h2]
    have hkv : probeKeyVault c w s1 =
        ({ status := "unhealthy",
           error := some "KEY_VAULT_URI not configured",
           namespace_status := none }, s1) := by
      unfold probeKeyVault getKeyvaultClient
      simp [h1, hk]
    dsimp only
    rw [hkv]

/-- Witness for `test_connections_total_on_missing_config` on the
unconfigured environment. -/
theorem test_connections_total_on_missing_config_witness :
    (test_connections cfgEmpty happyWorld state0).1.1 =
      { status := "unhealthy",
        error := some "AZURE_SUBSCRIPTION_ID not configured",
        namespace_status := none } ∧
    (test_connections cfgEmpty happyWorld state0).1.2 =
      { status := "unhealthy",
        error := some "KEY_VAULT_URI not configured",
        namespace_status := none } :=
  ⟨(test_connections_total_on_missing_config cfgEmpty happyWorld state0).1
      (by rfl) (by rfl),
    (test_connections_total_on_missing_config cfgEmpty happyWorld state0).2
      (by rfl) (by rfl)⟩
